import Mathlib

/-!
# Verification of the Munjiz authentication flow

Shallow embedding of the credential-authentication components of the Munjiz
project-management application: the verification-token service
(`src/lib/tokens.ts`), the email-verification API route
(`src/app/api/auth/verify-email/route.ts`), the credential authenticator
(`src/auth.ts`), the Zod validation schemas (`src/lib/validations/auth.ts`),
the DNS domain-liveness checker (`lib/auth/email-verification.ts`), the
registration route and the email dispatcher.

The MongoDB collection of verification tokens is modelled as a list of
records in natural (insertion) order; `findOne` is first-match search,
`deleteOne` removes the first matching document, `deleteMany` filters, and
`create` appends.  Timestamps are milliseconds since the epoch, as
delivered by JavaScript `Date.now()`.
-/

namespace Munjiz

/-! ### JavaScript string primitives

`String.prototype.toLowerCase`, `trim` and `split` are modelled directly
on the character sequence, so that every definition evaluates inside the
kernel. -/

/-- JavaScript `s.toLowerCase()` (ASCII case mapping). -/
def jsToLower (s : String) : String := ⟨s.data.map Char.toLower⟩

/-- JavaScript `s.trim()`: strip whitespace from both ends. -/
def jsTrim (s : String) : String :=
  ⟨((s.data.dropWhile Char.isWhitespace).reverse.dropWhile Char.isWhitespace).reverse⟩

/-- JavaScript `s.split(sep)` for a one-character separator. -/
def jsSplit (s : String) (sep : Char) : List String :=
  (s.data.splitOn sep).map (fun l => ⟨l⟩)

/-- A document of the `VerificationToken` collection
(`models/VerificationToken/verificationTokenSchema.ts`): email, unique
token string, and expiry timestamp in milliseconds. -/
structure TokenRec where
  email : String
  token : String
  expires : Nat
deriving DecidableEq, Repr

/-- `VerificationToken.deleteOne({ token })` / `deleteOne({ _id })` of the
record found by token: removes the first document whose `token` field
matches. -/
def deleteFirstByToken : List TokenRec → String → List TokenRec
  | [], _ => []
  | r :: rs, tok => if r.token == tok then rs else r :: deleteFirstByToken rs tok

/-- `getVerificationTokenByToken` (`src/lib/tokens.ts` lines 81-107).
`findOne({ token })`; if absent return `null`; if `new Date() > expires`
delete the expired record and return `null`; otherwise return the record
unchanged.  The `dbFail` flag models a database layer that throws during
the lookup: the surrounding try/catch swallows the error and returns
`null` with the store untouched.  Result: the returned value and the
token store after the call. -/
def getVerificationTokenByToken (dbFail : Bool) (st : List TokenRec)
    (now : Nat) (tok : String) : Option TokenRec × List TokenRec :=
  if dbFail then (none, st)
  else
    match st.find? (fun r => r.token == tok) with
    | none => (none, st)
    | some r =>
      if r.expires < now then (none, deleteFirstByToken st tok)
      else (some r, st)

/-- `generateVerificationToken` (`src/lib/tokens.ts` lines 35-64).
The securely generated random token string is passed in as `tok` (the
output of `generateSecureToken`), and `now` is `Date.now()`.  Normalizes
the email with `toLowerCase().trim()`, sets expiry to one hour from now,
deletes every existing token for the normalized email, appends the new
record, and returns it. -/
def generateVerificationToken (st : List TokenRec) (now : Nat)
    (tok email : String) : TokenRec × List TokenRec :=
  let norm := jsTrim (jsToLower email)
  let expires := now + 60 * 60 * 1000
  let newRec : TokenRec := ⟨norm, tok, expires⟩
  let purged := st.filter (fun r => !(r.email == norm))
  (newRec, purged ++ [newRec])

/-- `deleteVerificationToken` (`src/lib/tokens.ts` lines 152-159):
`deleteOne({ token })`. -/
def deleteVerificationToken (st : List TokenRec) (tok : String) : List TokenRec :=
  deleteFirstByToken st tok

/-! ### Helper lemmas about the token store -/

theorem deleteFirstByToken_append_of_no_match {l₁ : List TokenRec}
    (l₂ : List TokenRec) (tok : String)
    (h : ∀ r ∈ l₁, (r.token == tok) = false) :
    deleteFirstByToken (l₁ ++ l₂) tok = l₁ ++ deleteFirstByToken l₂ tok := by
  induction l₁ with
  | nil => simp
  | cons r rs ih =>
    have hr := h r (List.mem_cons_self r rs)
    simp [deleteFirstByToken, hr]
    exact ih (fun x hx => h x (List.mem_cons_of_mem r hx))

theorem find?_append_of_no_match {l₁ : List TokenRec} (l₂ : List TokenRec)
    (p : TokenRec → Bool) (h : ∀ r ∈ l₁, p r = false) :
    (l₁ ++ l₂).find? p = l₂.find? p := by
  induction l₁ with
  | nil => simp
  | cons r rs ih =>
    have hr := h r (List.mem_cons_self r rs)
    rw [List.cons_append, List.find?_cons_of_neg _ (by simp [hr])]
    exact ih (fun x hx => h x (List.mem_cons_of_mem r hx))

theorem filter_not_filter (st : List TokenRec) (p : TokenRec → Bool) :
    (st.filter fun r => !(p r)).filter p = [] := by
  induction st with
  | nil => rfl
  | cons r rs ih => cases h : p r <;> simp [List.filter_cons, h, ih]

theorem getVTBT_not_found (st : List TokenRec) (now : Nat) (tok : String)
    (h : st.find? (fun x => x.token == tok) = none) :
    getVerificationTokenByToken false st now tok = (none, st) := by
  simp [getVerificationTokenByToken, h]

theorem getVTBT_found_expired (st : List TokenRec) (now : Nat) (tok : String)
    (r : TokenRec) (hfind : st.find? (fun x => x.token == tok) = some r)
    (h : r.expires < now) :
    getVerificationTokenByToken false st now tok
      = (none, deleteFirstByToken st tok) := by
  simp [getVerificationTokenByToken, hfind, h]

theorem getVTBT_found_valid (st : List TokenRec) (now : Nat) (tok : String)
    (r : TokenRec) (hfind : st.find? (fun x => x.token == tok) = some r)
    (h : ¬ r.expires < now) :
    getVerificationTokenByToken false st now tok = (some r, st) := by
  simp [getVerificationTokenByToken, hfind, h]

/-! ### Claims about the token service -/

/-- A stored token whose `expires` timestamp will coincide exactly with
the lookup time. -/
def expiryBoundaryToken : TokenRec := ⟨"user@example.com", "tok123", 1000⟩

/-- C1 (counterexample): the claim says that consuming a token at a moment
when `now` equals `expires` deletes the record and returns null.  The code
tests strict `new Date() > expires`, so at `now = expires = 1000` the
lookup returns the record as valid and leaves the store untouched. -/
theorem getVerificationTokenByToken_at_expiry_returns_token :
    getVerificationTokenByToken false [expiryBoundaryToken] 1000 "tok123"
      = (some expiryBoundaryToken, [expiryBoundaryToken]) ∧
    expiryBoundaryToken.expires = 1000 := by
  exact ⟨rfl, rfl⟩

/-- C1 (amended): a found token is treated as expired exactly when `now`
is strictly greater than `expires`: for `expires < now` the record is
deleted and null is returned, while for `now ≤ expires` (including the
boundary `now = expires`) the record is returned and the store is left
unchanged. -/
theorem getVerificationTokenByToken_expiry_strict (st : List TokenRec)
    (now : Nat) (tok : String) (r : TokenRec)
    (hfind : st.find? (fun x => x.token == tok) = some r) :
    (r.expires < now →
      getVerificationTokenByToken false st now tok
        = (none, deleteFirstByToken st tok)) ∧
    (now ≤ r.expires →
      getVerificationTokenByToken false st now tok = (some r, st)) := by
  constructor
  · intro hlt
    exact getVTBT_found_expired st now tok r hfind hlt
  · intro hle
    exact getVTBT_found_valid st now tok r hfind (Nat.not_lt.mpr hle)

/-- C1 (witness): the amended theorem applied at a concrete store: a token
that expired at time 5, consumed at time 6, is deleted and not returned. -/
theorem getVerificationTokenByToken_expiry_strict_witness :
    getVerificationTokenByToken false [(⟨"e@x.com", "t", 5⟩ : TokenRec)] 6 "t"
      = (none, []) :=
  (getVerificationTokenByToken_expiry_strict [⟨"e@x.com", "t", 5⟩] 6 "t"
    ⟨"e@x.com", "t", 5⟩ rfl).1 (by decide)

/-- C6: `generateVerificationToken` returns the record
`{email := lowercased-trimmed input, token, expires := now + 1 hour}`,
and because every pre-existing token for the normalized email is deleted
before the insert, at most one token for that email exists in the store
immediately after issuance. -/
theorem generateVerificationToken_single_active (st : List TokenRec)
    (now : Nat) (tok email : String) :
    (generateVerificationToken st now tok email).1
        = ⟨jsTrim (jsToLower email), tok, now + 60 * 60 * 1000⟩ ∧
    ((generateVerificationToken st now tok email).2.filter
        (fun r => r.email == jsTrim (jsToLower email))).length ≤ 1 := by
  refine ⟨rfl, ?_⟩
  simp [generateVerificationToken, List.filter_append,
    filter_not_filter st (fun r => r.email == jsTrim (jsToLower email))]

/-- C5: round-trip.  Issuing a token for email `X` (with a fresh random
token string) and immediately consuming it returns a record whose email
is the lowercased, trimmed `X`; after the consume and an intervening
`deleteVerificationToken`, consuming the same token string again returns
null. -/
theorem token_roundtrip (st : List TokenRec) (now : Nat) (tok X : String)
    (hfresh : ∀ r ∈ st, (r.token == tok) = false) :
    getVerificationTokenByToken false (generateVerificationToken st now tok X).2 now tok
      = (some ⟨jsTrim (jsToLower X), tok, now + 60 * 60 * 1000⟩,
         (generateVerificationToken st now tok X).2) ∧
    (getVerificationTokenByToken false
        (deleteVerificationToken (generateVerificationToken st now tok X).2 tok)
        now tok).1 = none := by
  have hpf : ∀ r ∈ st.filter (fun s => !(s.email == jsTrim (jsToLower X))),
      (r.token == tok) = false :=
    fun r hr => hfresh r (List.mem_of_mem_filter hr)
  have hgen : (generateVerificationToken st now tok X).2
      = (st.filter fun s => !(s.email == jsTrim (jsToLower X)))
        ++ [⟨jsTrim (jsToLower X), tok, now + 60 * 60 * 1000⟩] := rfl
  have hfind : List.find? (fun x : TokenRec => x.token == tok)
      ((st.filter fun s => !(s.email == jsTrim (jsToLower X)))
        ++ [(⟨jsTrim (jsToLower X), tok, now + 60 * 60 * 1000⟩ : TokenRec)])
      = some ⟨jsTrim (jsToLower X), tok, now + 60 * 60 * 1000⟩ := by
    rw [find?_append_of_no_match _ _ hpf]
    simp [List.find?]
  constructor
  · rw [hgen]
    exact getVTBT_found_valid _ now tok _ hfind
      (by show ¬ now + 60 * 60 * 1000 < now; omega)
  · rw [hgen, deleteVerificationToken,
      deleteFirstByToken_append_of_no_match _ _ hpf]
    have hdel : deleteFirstByToken
        [(⟨jsTrim (jsToLower X), tok, now + 60 * 60 * 1000⟩ : TokenRec)] tok = [] := by
      simp [deleteFirstByToken]
    rw [hdel, List.append_nil]
    have hnone : List.find? (fun x : TokenRec => x.token == tok)
        (st.filter fun s => !(s.email == jsTrim (jsToLower X))) = none :=
      List.find?_eq_none.mpr (fun x hx => by simp [hpf x hx])
    rw [getVTBT_not_found _ now tok hnone]

/-- C5 (witness): the round-trip theorem applied to the empty store with
email `" A@B.com"` at time 0: the consumed record carries email
`"a@b.com"`, and after delete the second consume returns null. -/
theorem token_roundtrip_witness :
    getVerificationTokenByToken false
        (generateVerificationToken [] 0 "t" " A@B.com").2 0 "t"
      = (some ⟨"a@b.com", "t", 3600000⟩,
         (generateVerificationToken [] 0 "t" " A@B.com").2) ∧
    (getVerificationTokenByToken false
        (deleteVerificationToken (generateVerificationToken [] 0 "t" " A@B.com").2 "t")
        0 "t").1 = none :=
  token_roundtrip [] 0 "t" " A@B.com" (by simp)

/-! ### The email-verification API route -/

/-- A document of the `User` collection (`src/models/User/userSchema.ts`):
the fields the authentication flow reads.  `emailVerified` is a nullable
timestamp, `password` is absent for OAuth-only accounts. -/
structure DbUser where
  id : Nat
  name : String
  email : String
  password : Option String
  emailVerified : Option Nat
  image : Option String
deriving DecidableEq, Repr

/-- The JSON body of a response from the API routes: either
`{ error: msg }` or `{ success: true, message: msg }`. -/
inductive ApiBody where
  | errorMsg (msg : String)
  | successMsg (msg : String)
deriving DecidableEq, Repr

/-- An HTTP response: status code and JSON body. -/
structure ApiResponse where
  status : Nat
  body : ApiBody
deriving DecidableEq, Repr

/-- `user.emailVerified = new Date(); await user.save()`: set the
verification timestamp on the first user document with the given email. -/
def updateFirstByEmail : List DbUser → String → Nat → List DbUser
  | [], _, _ => []
  | u :: us, email, now =>
    if u.email == email then { u with emailVerified := some now } :: us
    else u :: updateFirstByEmail us email now

/-- `POST /api/auth/verify-email`
(`src/app/api/auth/verify-email/route.ts`).  `tokenField` is the `token`
field of the request body (`none` when absent; the empty string is also
JavaScript-falsy and rejected as missing).  `dbFail` is threaded into
`getVerificationTokenByToken` to model a database error thrown during the
token lookup (swallowed there).  Returns the response together with the
user and token collections after the call. -/
def verifyEmailPOST (dbFail : Bool) (users : List DbUser)
    (tokens : List TokenRec) (now : Nat) (tokenField : Option String) :
    ApiResponse × List DbUser × List TokenRec :=
  match tokenField with
  | none => (⟨400, .errorMsg "Missing verification token"⟩, users, tokens)
  | some t =>
    if t == "" then (⟨400, .errorMsg "Missing verification token"⟩, users, tokens)
    else
      match getVerificationTokenByToken dbFail tokens now t with
      | (none, tokens1) =>
        (⟨400, .errorMsg "Invalid or expired verification token"⟩, users, tokens1)
      | (some vt, tokens1) =>
        match users.find? (fun u => u.email == vt.email) with
        | none => (⟨404, .errorMsg "User not found"⟩, users, tokens1)
        | some u =>
          match u.emailVerified with
          | some _ =>
            (⟨200, .successMsg "Email already verified. You can sign in now."⟩,
             users, deleteVerificationToken tokens1 t)
          | none =>
            (⟨200, .successMsg "Email verified successfully! You can now sign in to your account."⟩,
             updateFirstByEmail users vt.email now,
             deleteVerificationToken tokens1 t)

/-- C7: idempotent verification.  For a valid (present, unexpired) token
whose user already has `emailVerified` set, the route deletes the token
and responds 200 success, leaving the user collection — in particular the
existing `emailVerified` timestamp — untouched. -/
theorem verifyEmail_already_verified (users : List DbUser)
    (tokens : List TokenRec) (now : Nat) (t : String) (r : TokenRec)
    (u : DbUser) (ts : Nat)
    (hne : (t == "") = false)
    (hfind : tokens.find? (fun x => x.token == t) = some r)
    (hvalid : ¬ r.expires < now)
    (huser : users.find? (fun x => x.email == r.email) = some u)
    (hverified : u.emailVerified = some ts) :
    verifyEmailPOST false users tokens now (some t)
      = (⟨200, .successMsg "Email already verified. You can sign in now."⟩,
         users, deleteVerificationToken tokens t) := by
  have hget : getVerificationTokenByToken false tokens now t = (some r, tokens) :=
    getVTBT_found_valid tokens now t r hfind hvalid
  simp [verifyEmailPOST, hne, hget, huser, hverified]

/-- C7 (witness): the idempotence theorem applied to a store with one
valid token and one already-verified user. -/
theorem verifyEmail_already_verified_witness :
    verifyEmailPOST false
        [⟨1, "John", "j@x.com", some "hash", some 42, none⟩]
        [⟨"j@x.com", "tok", 100⟩] 50 (some "tok")
      = (⟨200, .successMsg "Email already verified. You can sign in now."⟩,
         [⟨1, "John", "j@x.com", some "hash", some 42, none⟩], []) :=
  verifyEmail_already_verified
    [⟨1, "John", "j@x.com", some "hash", some 42, none⟩]
    [⟨"j@x.com", "tok", 100⟩] 50 "tok" ⟨"j@x.com", "tok", 100⟩
    ⟨1, "John", "j@x.com", some "hash", some 42, none⟩ 42
    (by decide) rfl (by decide) rfl rfl

/-- C10 (implicit): if the database layer throws during the token lookup,
`getVerificationTokenByToken` swallows the error and returns null, so the
verification endpoint responds 400 "Invalid or expired verification
token" — not 500 — with both collections untouched. -/
theorem verifyEmail_db_error_gives_400 (users : List DbUser)
    (tokens : List TokenRec) (now : Nat) (t : String)
    (hne : (t == "") = false) :
    verifyEmailPOST true users tokens now (some t)
      = (⟨400, .errorMsg "Invalid or expired verification token"⟩,
         users, tokens) := by
  simp [verifyEmailPOST, hne, getVerificationTokenByToken]

/-- C10 (witness): a database failure during lookup of token `"tok"`
yields the 400 invalid-or-expired response. -/
theorem verifyEmail_db_error_gives_400_witness :
    verifyEmailPOST true [] [⟨"j@x.com", "tok", 100⟩] 50 (some "tok")
      = (⟨400, .errorMsg "Invalid or expired verification token"⟩,
         [], [⟨"j@x.com", "tok", 100⟩]) :=
  verifyEmail_db_error_gives_400 [] [⟨"j@x.com", "tok", 100⟩] 50 "tok" (by decide)

/-! ### The Zod email schema with typo detection
(`src/lib/validations/auth.ts`)

`emailSchema` is a Zod string schema with the ordered checks
`trim`, `min(1)`, `max(254)`, `email(...)`, `toLowerCase`, followed by a
`transform(trim)` effect and a `superRefine` typo check.  Zod (v3)
string checks run in order, mutating the value at `trim`/`toLowerCase`
and collecting issues without aborting; the `transform` effect only runs
when the inner parse carried no issues, while the `refinement` effect
(`superRefine`) also runs on a dirty result.  The built-in syntactic
email check is kept abstract as a predicate `isEmail`, since no claim
depends on which strings the Zod email regular expression accepts. -/

def ERR_EMAIL_REQUIRED : String := "Email address is required"

def ERR_EMAIL_TOO_LONG : String := "Email address cannot exceed 254 characters"

def ERR_EMAIL_INVALID : String :=
  "Please enter a valid email address (e.g., user@example.com)"

/-- `DOMAIN_TYPO_MAP` (`src/lib/validations/auth.ts` lines 94-152):
common misspellings of email provider domains mapped to the corrected
domain. -/
def DOMAIN_TYPO_MAP : List (String × String) := [
  ("gamil.com", "gmail.com"),
  ("gmial.com", "gmail.com"),
  ("gmai.com", "gmail.com"),
  ("gmil.com", "gmail.com"),
  ("gmaill.com", "gmail.com"),
  ("gmails.com", "gmail.com"),
  ("gnail.com", "gmail.com"),
  ("gmaul.com", "gmail.com"),
  ("yaho.com", "yahoo.com"),
  ("yahooo.com", "yahoo.com"),
  ("yhoo.com", "yahoo.com"),
  ("yahhoo.com", "yahoo.com"),
  ("yaboo.com", "yahoo.com"),
  ("yahou.com", "yahoo.com"),
  ("hotmial.com", "hotmail.com"),
  ("hotmil.com", "hotmail.com"),
  ("hotmal.com", "hotmail.com"),
  ("hotmaii.com", "hotmail.com"),
  ("hotmaill.com", "hotmail.com"),
  ("hotmeil.com", "hotmail.com"),
  ("hotmali.com", "hotmail.com"),
  ("outlok.com", "outlook.com"),
  ("outloook.com", "outlook.com"),
  ("outluk.com", "outlook.com"),
  ("outllook.com", "outlook.com"),
  ("outtlook.com", "outlook.com"),
  ("outlouk.com", "outlook.com"),
  ("icould.com", "icloud.com"),
  ("iclod.com", "icloud.com"),
  ("icloud.con", "icloud.com"),
  ("icloude.com", "icloud.com"),
  ("iclould.com", "icloud.com"),
  ("protonmial.com", "protonmail.com"),
  ("protonmai.com", "protonmail.com"),
  ("protonmali.com", "protonmail.com"),
  ("protonmeil.com", "protonmail.com"),
  ("gmail.con", "gmail.com"),
  ("yahoo.con", "yahoo.com"),
  ("hotmail.con", "hotmail.com"),
  ("outlook.con", "outlook.com"),
  ("gmail.cpm", "gmail.com"),
  ("yahoo.cpm", "yahoo.com"),
  ("gmail.co", "gmail.com"),
  ("yahoo.co", "yahoo.com")]

/-- `extractDomain` (`src/lib/validations/auth.ts` lines 166-170): split
on `@`; if the email does not have exactly two parts return null,
otherwise return the lowercased second part. -/
def extractDomain (email : String) : Option String :=
  let parts := jsSplit email '@'
  if parts.length != 2 then none
  else some (jsToLower (parts.getD 1 ""))

/-- The message added by the `superRefine` typo check:
`Did you mean ${suggestedEmail}? Please check your email address.` -/
def typoMessage (suggestedEmail : String) : String :=
  "Did you mean " ++ suggestedEmail ++ "? Please check your email address."

/-- The `superRefine` body of `emailSchema` (`src/lib/validations/auth.ts`
lines 208-227): if the domain of the (already normalized) email is a key
of `DOMAIN_TYPO_MAP`, add one custom issue suggesting
`username@correctDomain`. -/
def emailTypoIssues (email : String) : List String :=
  match extractDomain email with
  | none => []
  | some domain =>
    match DOMAIN_TYPO_MAP.lookup domain with
    | none => []
    | some correctDomain =>
      let username := (jsSplit email '@').getD 0 ""
      [typoMessage (username ++ "@" ++ correctDomain)]

/-- The ZodString check chain of `emailSchema`:
`trim`, `min(1)`, `max(254)`, `email`, `toLowerCase`, applied in order to
the value, collecting issues without aborting.  Returns the transformed
value and the issues. -/
def emailStringChecks (isEmail : String → Bool) (input : String) :
    String × List String :=
  let v := jsTrim input
  let issues :=
    (if v.length < 1 then [ERR_EMAIL_REQUIRED] else [])
    ++ (if 254 < v.length then [ERR_EMAIL_TOO_LONG] else [])
    ++ (if isEmail v then [] else [ERR_EMAIL_INVALID])
  (jsToLower v, issues)

/-- The full `emailSchema` parse: the string checks, the
`transform(trim)` effect (skipped when the checks produced issues), and
the `superRefine` typo check (always run).  Returns the final value and
the complete issue list; the parse succeeds exactly when the list is
empty. -/
def emailSchemaParse (isEmail : String → Bool) (input : String) :
    String × List String :=
  let c := emailStringChecks isEmail input
  let v := if c.2.isEmpty then jsTrim c.1 else c.1
  (v, c.2 ++ emailTypoIssues v)

theorem emailSchemaParse_snd (isEmail : String → Bool) (input : String) :
    (emailSchemaParse isEmail input).2
      = (emailStringChecks isEmail input).2
        ++ emailTypoIssues (emailSchemaParse isEmail input).1 := rfl

/-- C4: typo detection.  For every email whose domain — the lowercased
part after `@` of the normalized value — is a key of `DOMAIN_TYPO_MAP`,
validation fails and the issue list contains a message containing the
corrected address (username unchanged, domain replaced by the map
value); for every email whose domain is not in the map (in particular
every syntactically valid one), the typo check adds no issue, so the
issues are exactly those of the plain string checks. -/
theorem emailSchema_typo_detection (isEmail : String → Bool)
    (input d : String)
    (hd : extractDomain (emailSchemaParse isEmail input).1 = some d) :
    (∀ c, DOMAIN_TYPO_MAP.lookup d = some c →
      (emailSchemaParse isEmail input).2 ≠ [] ∧
      ∃ m ∈ (emailSchemaParse isEmail input).2, ∃ pre post,
        m.data = pre
          ++ ((jsSplit (emailSchemaParse isEmail input).1 '@').getD 0 ""
              ++ "@" ++ c).data
          ++ post) ∧
    (DOMAIN_TYPO_MAP.lookup d = none →
      (emailSchemaParse isEmail input).2
        = (emailStringChecks isEmail input).2) := by
  constructor
  · intro c hc
    have htypo : emailTypoIssues (emailSchemaParse isEmail input).1
        = [typoMessage
            ((jsSplit (emailSchemaParse isEmail input).1 '@').getD 0 ""
              ++ "@" ++ c)] := by
      simp only [emailTypoIssues, hd, hc]
    have hmem : typoMessage
        ((jsSplit (emailSchemaParse isEmail input).1 '@').getD 0 ""
          ++ "@" ++ c) ∈ (emailSchemaParse isEmail input).2 := by
      rw [emailSchemaParse_snd, htypo]
      exact List.mem_append_right _ (List.mem_singleton.mpr rfl)
    refine ⟨fun hnil => by simp [hnil] at hmem, ?_⟩
    refine ⟨_, hmem, "Did you mean ".data,
      "? Please check your email address.".data, ?_⟩
    rw [typoMessage, String.data_append, String.data_append]
  · intro hc
    have htypo : emailTypoIssues (emailSchemaParse isEmail input).1 = [] := by
      simp only [emailTypoIssues, hd, hc]
    rw [emailSchemaParse_snd, htypo, List.append_nil]

/-- C4 (witness): the typo theorem applied at `"USER@GAMIL.COM"` (with an
accepting syntax predicate): the parse fails and the issue message
contains the corrected address `user@gmail.com`. -/
theorem emailSchema_typo_detection_witness :
    (emailSchemaParse (fun _ => true) "USER@GAMIL.COM").2 ≠ [] ∧
    ∃ m ∈ (emailSchemaParse (fun _ => true) "USER@GAMIL.COM").2,
      ∃ pre post,
        m.data = pre
          ++ ((jsSplit (emailSchemaParse (fun _ => true) "USER@GAMIL.COM").1 '@').getD 0 ""
              ++ "@" ++ "gmail.com").data
          ++ post :=
  (emailSchema_typo_detection (fun _ => true) "USER@GAMIL.COM" "gamil.com"
    (by decide)).1 "gmail.com" (by decide)

/-! ### The credential authenticator (`src/auth.ts`, `authorize`) -/

def ERR_PASSWORD_REQUIRED : String := "Password is required"

/-- `signInSchema.safeParse({email, password})`: the email field runs the
full `emailSchema`, the password field only `min(1)`; the parse succeeds
exactly when neither field produced an issue, returning the normalized
email and the raw password. -/
def signInParse (isEmail : String → Bool) (email password : String) :
    Option (String × String) :=
  let e := emailSchemaParse isEmail email
  let pIssues := if password.length < 1 then [ERR_PASSWORD_REQUIRED] else []
  if e.2.isEmpty && pIssues.isEmpty then some (e.1, password) else none

/-- The error thrown inside `authorize` when the email of the account is not
verified: `throw new Error("EmailNotVerified")`. -/
inductive AuthError where
  | emailNotVerified
deriving DecidableEq, Repr

/-- The minimal identity object returned on successful authentication:
`{id, email, name, image}`. -/
structure AuthIdentity where
  id : Nat
  email : String
  name : String
  image : Option String
deriving DecidableEq, Repr

/-- The body of the `try` block of `authorize` (`src/auth.ts` lines
33-81): validate credentials, look up the user by normalized email,
return null when the user is missing or has no password hash, throw
`EmailNotVerified` when `emailVerified` is unset, then compare the
password with `bcrypt.compare` (modelled by the oracle `compare`). -/
def authorizeTry (isEmail : String → Bool)
    (compare : String → String → Bool) (users : List DbUser)
    (credEmail credPassword : String) :
    Except AuthError (Option AuthIdentity) :=
  match signInParse isEmail credEmail credPassword with
  | none => .ok none
  | some (email, password) =>
    match users.find? (fun u => u.email == email) with
    | none => .ok none
    | some user =>
      match user.password with
      | none => .ok none
      | some hash =>
        match user.emailVerified with
        | none => .error AuthError.emailNotVerified
        | some _ =>
          if compare password hash then
            .ok (some ⟨user.id, user.email, user.name, user.image⟩)
          else .ok none

/-- `authorize` (`src/auth.ts` lines 32-86): the whole body is wrapped in
`try { ... } catch (error) { console.error(...); return null; }`, so any
error thrown inside — including `EmailNotVerified` — is converted to a
plain null return. -/
def authorize (isEmail : String → Bool)
    (compare : String → String → Bool) (users : List DbUser)
    (credEmail credPassword : String) : Option AuthIdentity :=
  match authorizeTry isEmail compare users credEmail credPassword with
  | .ok r => r
  | .error _ => none

/-- An account with a password hash whose email is not verified. -/
def unverifiedUser : DbUser :=
  ⟨1, "John", "user@example.com", some "Secret123!", none, none⟩

/-- A verified account used to observe the wrong-password outcome. -/
def verifiedUser : DbUser :=
  ⟨2, "Jane", "jane@example.com", some "Secret123!", some 1000, none⟩

/-- C2 (code bug): the inner body of `authorize` does raise the
distinguished `EmailNotVerified` error for an unverified account, but the
catch-all of the function converts it to null — observably identical to
the generic bad-credentials outcome (here: a wrong password against a
verified account).  The claimed distinguished outcome never escapes
`authorize`. -/
theorem authorize_unverified_indistinguishable :
    authorizeTry (fun _ => true) (fun p h => p == h) [unverifiedUser]
        "user@example.com" "Secret123!"
      = Except.error AuthError.emailNotVerified ∧
    authorize (fun _ => true) (fun p h => p == h) [unverifiedUser]
        "user@example.com" "Secret123!"
      = none ∧
    authorize (fun _ => true) (fun p h => p == h) [verifiedUser]
        "jane@example.com" "WrongPass1!"
      = none := by
  exact ⟨rfl, rfl, rfl⟩

/-! ### The Zod password schema (`src/lib/validations/auth.ts`,
`passwordSchema` and `VALIDATION_RULES.PASSWORD`) -/

def ERR_PASSWORD_TOO_SHORT : String :=
  "Password must be at least 8 characters long"

def ERR_PASSWORD_TOO_LONG : String := "Password cannot exceed 100 characters"

def ERR_PASSWORD_NO_UPPERCASE : String :=
  "Password must include at least one uppercase letter (A-Z)"

def ERR_PASSWORD_NO_LOWERCASE : String :=
  "Password must include at least one lowercase letter (a-z)"

def ERR_PASSWORD_NO_NUMBER : String :=
  "Password must include at least one number (0-9)"

def ERR_PASSWORD_NO_SPECIAL : String :=
  "Password must include at least one special character (!@#$%^&*...)"

/-- The character class of `VALIDATION_RULES.PASSWORD.REGEX.SPECIAL`. -/
def PASSWORD_SPECIAL_CHARS : List Char := "!@#$%^&*()_+-=[]\x7b\x7d|;:,.<>?".data

/-- `/[A-Z]/.test(p)` -/
def hasUppercase (p : String) : Bool :=
  p.data.any fun c => decide ('A' ≤ c ∧ c ≤ 'Z')

/-- `/[a-z]/.test(p)` -/
def hasLowercase (p : String) : Bool :=
  p.data.any fun c => decide ('a' ≤ c ∧ c ≤ 'z')

/-- `/\d/.test(p)` -/
def hasDigit (p : String) : Bool :=
  p.data.any fun c => decide ('0' ≤ c ∧ c ≤ '9')

/-- The special-character regex test. -/
def hasSpecial (p : String) : Bool :=
  p.data.any fun c => PASSWORD_SPECIAL_CHARS.contains c

/-- `passwordSchema` (`src/lib/validations/auth.ts` lines 284-292): the
ordered checks `min(1)`, `min(8)`, `max(100)` and the four
character-class regexes, collecting one specific message per failed
check; the schema accepts exactly when the list is empty.  The password
is never trimmed or transformed. -/
def passwordSchemaIssues (p : String) : List String :=
  (if p.length < 1 then [ERR_PASSWORD_REQUIRED] else [])
  ++ (if p.length < 8 then [ERR_PASSWORD_TOO_SHORT] else [])
  ++ (if 100 < p.length then [ERR_PASSWORD_TOO_LONG] else [])
  ++ (if hasUppercase p then [] else [ERR_PASSWORD_NO_UPPERCASE])
  ++ (if hasLowercase p then [] else [ERR_PASSWORD_NO_LOWERCASE])
  ++ (if hasDigit p then [] else [ERR_PASSWORD_NO_NUMBER])
  ++ (if hasSpecial p then [] else [ERR_PASSWORD_NO_SPECIAL])

/-- C8: for every password of length 8-100, the schema accepts when all
four character classes are present, and when exactly one class is
missing it rejects with precisely the specific message of the missing
class. -/
theorem passwordSchema_classes (p : String)
    (hmin : 8 ≤ p.length) (hmax : p.length ≤ 100) :
    (hasUppercase p = true → hasLowercase p = true → hasDigit p = true →
      hasSpecial p = true → passwordSchemaIssues p = []) ∧
    (hasUppercase p = false → hasLowercase p = true → hasDigit p = true →
      hasSpecial p = true →
      passwordSchemaIssues p = [ERR_PASSWORD_NO_UPPERCASE]) ∧
    (hasUppercase p = true → hasLowercase p = false → hasDigit p = true →
      hasSpecial p = true →
      passwordSchemaIssues p = [ERR_PASSWORD_NO_LOWERCASE]) ∧
    (hasUppercase p = true → hasLowercase p = true → hasDigit p = false →
      hasSpecial p = true →
      passwordSchemaIssues p = [ERR_PASSWORD_NO_NUMBER]) ∧
    (hasUppercase p = true → hasLowercase p = true → hasDigit p = true →
      hasSpecial p = false →
      passwordSchemaIssues p = [ERR_PASSWORD_NO_SPECIAL]) := by
  have h1 : ¬ p.length < 1 := by omega
  have h8 : ¬ p.length < 8 := by omega
  have h100 : ¬ 100 < p.length := by omega
  refine ⟨?_, ?_, ?_, ?_, ?_⟩ <;> intro hu hl hdg hs <;>
    simp [passwordSchemaIssues, h1, h8, h100, hu, hl, hdg, hs]

/-- C8 (witness): the schema accepts `"Abcdef1!"` and rejects
`"abcdef1!"` with exactly the missing-uppercase message. -/
theorem passwordSchema_classes_witness :
    passwordSchemaIssues "Abcdef1!" = [] ∧
    passwordSchemaIssues "abcdef1!" = [ERR_PASSWORD_NO_UPPERCASE] :=
  ⟨(passwordSchema_classes "Abcdef1!" (by decide) (by decide)).1
      (by decide) (by decide) (by decide) (by decide),
   (passwordSchema_classes "abcdef1!" (by decide) (by decide)).2.1
      (by decide) (by decide) (by decide) (by decide)⟩

/-! ### The domain-liveness checker
(`lib/auth/email-verification.ts`, `validateEmailDomain`) -/

/-- A DNS mail-exchange record as returned by `dns.resolveMx`. -/
structure MxRecord where
  exchange : String
  priority : Nat
deriving DecidableEq, Repr

/-- The DNS resolver: `resolveMx` and `resolve4` either return a record
list or throw (`Except.error`). -/
structure DnsOracle where
  resolveMx : String → Except Unit (List MxRecord)
  resolve4 : String → Except Unit (List String)

/-- `extractDomain` of `lib/auth/email-verification.ts` lines 39-43:
split on `@`, require exactly two parts, lowercase and trim the second. -/
def extractDomainDns (email : String) : Option String :=
  let parts := jsSplit email '@'
  if parts.length != 2 then none
  else some (jsTrim (jsToLower (parts.getD 1 "")))

/-- `validateEmailDomain` (`lib/auth/email-verification.ts` lines
74-114).  MX lookup first: a successful lookup with at least one record
means live; when the MX lookup throws, fall back to `resolve4`; a
successful lookup with zero records — MX or A — falls through to the
final `return false`; any lookup error yields false.  Total: the caller
always receives a boolean. -/
def validateEmailDomain (dns : DnsOracle) (email : String) : Bool :=
  match extractDomainDns email with
  | none => false
  | some domain =>
    match dns.resolveMx domain with
    | .ok mxRecords => if 0 < mxRecords.length then true else false
    | .error _ =>
      match dns.resolve4 domain with
      | .ok aRecords => if 0 < aRecords.length then true else false
      | .error _ => false

/-- A resolver whose MX lookup succeeds with zero records while the A
lookup would return an address. -/
def dnsEmptyMxWithA : DnsOracle :=
  ⟨fun _ => .ok [], fun _ => .ok ["93.184.216.34"]⟩

/-- C3 (counterexample): the claim says that when the MX lookup "fails or
returns nothing" the checker falls back to the A-record lookup.  Against
a resolver whose MX lookup succeeds with an empty list and whose A
lookup yields one record, the code returns false: the A fallback only
runs when the MX lookup throws. -/
theorem validateEmailDomain_empty_mx_no_fallback :
    validateEmailDomain dnsEmptyMxWithA "user@example.com" = false ∧
    dnsEmptyMxWithA.resolveMx "example.com" = .ok [] ∧
    dnsEmptyMxWithA.resolve4 "example.com" = .ok ["93.184.216.34"] := by
  exact ⟨rfl, rfl, rfl⟩

/-- C3 (amended): `validateEmailDomain` is a total boolean function of
the resolver outcomes (never throws), and it returns true exactly when
the email has a well-formed domain and either the MX lookup succeeds
with at least one record, or the MX lookup throws and the A-record
lookup succeeds with at least one record.  In every other case —
malformed email, successful-but-empty MX lookup (no A fallback), empty A
fallback, or both lookups throwing — it returns false. -/
theorem validateEmailDomain_spec (dns : DnsOracle) (email : String) :
    validateEmailDomain dns email = true ↔
      ∃ domain, extractDomainDns email = some domain ∧
        ((∃ l, dns.resolveMx domain = Except.ok l ∧ l ≠ []) ∨
         ((∃ e, dns.resolveMx domain = Except.error e) ∧
          (∃ l, dns.resolve4 domain = Except.ok l ∧ l ≠ []))) := by
  constructor
  · intro h
    unfold validateEmailDomain at h
    cases hd : extractDomainDns email with
    | none => simp only [hd] at h; exact absurd h (by simp)
    | some domain =>
      simp only [hd] at h
      refine ⟨domain, rfl, ?_⟩
      cases hmx : dns.resolveMx domain with
      | ok l =>
        simp only [hmx] at h
        by_cases hl : 0 < l.length
        · exact Or.inl ⟨l, rfl, List.length_pos.mp hl⟩
        · rw [if_neg hl] at h; exact absurd h (by simp)
      | error e =>
        simp only [hmx] at h
        cases ha : dns.resolve4 domain with
        | ok l =>
          simp only [ha] at h
          by_cases hl : 0 < l.length
          · exact Or.inr ⟨⟨e, rfl⟩, l, rfl, List.length_pos.mp hl⟩
          · rw [if_neg hl] at h; exact absurd h (by simp)
        | error e2 =>
          simp only [ha] at h; exact absurd h (by simp)
  · rintro ⟨domain, hd, hcase⟩
    unfold validateEmailDomain
    simp only [hd]
    rcases hcase with ⟨l, hmx, hne⟩ | ⟨⟨e, hmx⟩, l, ha, hne⟩
    · simp only [hmx]
      rw [if_pos (List.length_pos.mpr hne)]
    · simp only [hmx, ha]
      rw [if_pos (List.length_pos.mpr hne)]

/-! ### Email dispatch (`src/lib/mail.ts`, `sendVerificationEmail`) and
the registration route (`src/app/api/register/route.ts`) -/

/-- The outcome of `resend.emails.send`: a data object, a returned error
object, or a thrown exception. -/
inductive SendOutcome where
  | okSend (idStr : String)
  | errResult
  | throwErr
deriving DecidableEq, Repr

/-- What `sendVerificationEmail` produces on success: the provider data,
or one of the two synthetic development-mode results
(`{id: "dev-mode"}` / `{id: "dev-mode-fallback"}`). -/
inductive MailResult where
  | sent (idStr : String)
  | devMode
  | devModeFallback
deriving DecidableEq, Repr

/-- The `try` block of `sendVerificationEmail` (`src/lib/mail.ts`):
on a returned provider error, log and return the synthetic dev-mode
result when `NODE_ENV === "development"`, otherwise throw; a thrown send
propagates. -/
def sendVerificationEmailTry (env : String) (outcome : SendOutcome) :
    Except Unit MailResult :=
  match outcome with
  | .okSend d => .ok (.sent d)
  | .throwErr => .error ()
  | .errResult => if env == "development" then .ok .devMode else .error ()

/-- `sendVerificationEmail`: the outer `catch` converts any error into
the dev-mode fallback result when `NODE_ENV === "development"` and
rethrows otherwise. -/
def sendVerificationEmail (env : String) (outcome : SendOutcome) :
    Except Unit MailResult :=
  match sendVerificationEmailTry env outcome with
  | .ok r => .ok r
  | .error e => if env == "development" then .ok .devModeFallback else .error e

/-- `POST /api/register` (the verification-gated registration route),
parametrized by the outcome of its earlier stages: Zod parse, domain
liveness, duplicate check; then user creation, token issuance and
`sendVerificationEmail`, whose thrown error is caught by the generic
handler of the route. -/
def registerPOST (parseOk domainValid userExists : Bool) (env : String)
    (outcome : SendOutcome) : ApiResponse :=
  if !parseOk then ⟨400, .errorMsg "Validation failed"⟩
  else if !domainValid then ⟨400, .errorMsg "Validation failed"⟩
  else if userExists then ⟨400, .errorMsg "User with this email already exists"⟩
  else
    match sendVerificationEmail env outcome with
    | .ok _ =>
      ⟨201, .successMsg "Registration successful! Please check your email to verify your account."⟩
    | .error _ => ⟨500, .errorMsg "Something went wrong during registration"⟩

/-- C9 (counterexample): the claim says any non-production context gets
the logged-link synthetic success.  With `NODE_ENV = "test"` — a
non-production context — a provider error is rethrown instead: the
fallback is gated on `NODE_ENV === "development"` only. -/
theorem sendVerificationEmail_test_env_throws :
    sendVerificationEmail "test" SendOutcome.errResult = Except.error () ∧
    "test" ≠ "production" ∧ "test" ≠ "development" := by
  exact ⟨rfl, by decide, by decide⟩

/-- C9 (amended): when the provider reports an error or throws,
`sendVerificationEmail` returns a synthetic success in development mode
(`NODE_ENV === "development"`), while in production it propagates the
failure, and the registration route surfaces it as the generic 500
response — the failure is never silently dropped in production. -/
theorem sendVerificationEmail_dev_prod (outcome : SendOutcome)
    (hfail : outcome = SendOutcome.errResult ∨ outcome = SendOutcome.throwErr) :
    (∃ r, sendVerificationEmail "development" outcome = Except.ok r) ∧
    sendVerificationEmail "production" outcome = Except.error () ∧
    registerPOST true true false "production" outcome
      = ⟨500, ApiBody.errorMsg "Something went wrong during registration"⟩ := by
  rcases hfail with h | h <;> subst h <;> exact ⟨⟨_, rfl⟩, rfl, rfl⟩

/-- C9 (witness): the amended theorem at a returned provider error. -/
theorem sendVerificationEmail_dev_prod_witness :
    (∃ r, sendVerificationEmail "development" SendOutcome.errResult
      = Except.ok r) ∧
    sendVerificationEmail "production" SendOutcome.errResult
      = Except.error () ∧
    registerPOST true true false "production" SendOutcome.errResult
      = ⟨500, ApiBody.errorMsg "Something went wrong during registration"⟩ :=
  sendVerificationEmail_dev_prod SendOutcome.errResult (Or.inl rfl)

end Munjiz
